import Mathlib

/-!
Verification of the session-managed ERP scraping backend (src/main.py).

Shallow embedding conventions:

* The global Python dict `captcha_sessions` is modelled as an association
  list `Registry = List (String × SessionRecord)` with Python dict
  semantics: insertion preserves order and overwrites in place, deletion
  removes the entry for a key, iteration is in insertion order.  Every
  registry the program builds has pairwise distinct keys.
* Timestamps (`datetime.now()`, `created_at`) are integers counting
  seconds; `timedelta(minutes=10)` is the constant 600.
* Network calls (`requests`) are modelled by an oracle value of type
  `Net α`: either a response (`ok`) or a raised
  `requests.exceptions.RequestException` (`netErr`), which also covers
  `raise_for_status` failures.
* HTML responses are modelled pre-parsed, at the level of the
  BeautifulSoup observations the code extracts from them: a login page
  yields an optional csrf meta content, a probe page an optional captcha
  image url, a report page an optional table, where a table is its
  header cell texts and its body rows of cell texts (raw, before
  `.strip()`).
* The body of a login POST response is kept as a raw string, because the
  code tests it with the substring check `"Logout" in text`.
* `secrets.token_urlsafe(16)` and `requests.Session()` are modelled by
  explicitly passed parameters `new_id : String` and `fresh_sess : Nat`
  (an abstract identity for the cookie-jar client object).
-/

/-- Python dict membership test `k in m` for the association-list model. -/
def dictContains {α : Type} (m : List (String × α)) (k : String) : Bool :=
  m.any (fun p => p.1 == k)

/-- Python dict lookup `m[k]` for the association-list model. -/
def dictLookup {α : Type} (m : List (String × α)) (k : String) : Option α :=
  match m.find? (fun p => p.1 == k) with
  | some p => some p.2
  | none => none

/-- Python dict assignment `m[k] = v`: overwrite in place when the key is
present, otherwise append at the end (dicts preserve insertion order). -/
def dictInsert {α : Type} (m : List (String × α)) (k : String) (v : α) :
    List (String × α) :=
  if m.any (fun p => p.1 == k) then
    m.map (fun p => if p.1 == k then (k, v) else p)
  else
    m ++ [(k, v)]

/-- Python dict deletion `del m[k]`. -/
def dictDelete {α : Type} (m : List (String × α)) (k : String) :
    List (String × α) :=
  m.filter (fun p => p.1 != k)

/-- Python `dict(zip(ks, vs))`: pairs are truncated to the shorter list and
inserted left to right, so a duplicated key keeps the rightmost value. -/
def dictOfZip {α : Type} (ks : List String) (vs : List α) :
    List (String × α) :=
  (ks.zip vs).foldl (fun m p => dictInsert m p.1 p.2) []

/-- Helper for the model of Python `pat in s`: list prefix test. -/
def isPrefixList : List Char → List Char → Bool
  | [], _ => true
  | _ :: _, [] => false
  | a :: as, b :: bs => a == b && isPrefixList as bs

/-- Helper for the model of Python `pat in s`: occurrence at any offset. -/
def occursInList (pat : List Char) : List Char → Bool
  | [] => isPrefixList pat []
  | c :: cs => isPrefixList pat (c :: cs) || occursInList pat cs

/-- Python substring test `pat in s`. -/
def containsSubstr (s pat : String) : Bool :=
  occursInList pat.data s.data

/-- Model of Python `s.strip()`: remove leading and trailing whitespace. -/
def strip (s : String) : String :=
  ⟨((s.data.dropWhile Char.isWhitespace).reverse.dropWhile
      Char.isWhitespace).reverse⟩

/-- Helper for the model of Python `int`: a nonempty all-digit string. -/
def parseDigits (cs : List Char) : Option Nat :=
  if cs = [] then none
  else if cs.all (fun c => c.isDigit) then
    some (cs.foldl (fun n c => 10 * n + (c.toNat - 48)) 0)
  else none

/-- Model of Python `int(s)` on an already stripped string: an optional
sign followed by at least one digit, `none` when the call raises
`ValueError` (digit-group underscores are not modelled). -/
def pyInt (s : String) : Option Int :=
  match s.data with
  | '-' :: rest => (parseDigits rest).map (fun n => -(n : Int))
  | '+' :: rest => (parseDigits rest).map (fun n => (n : Int))
  | cs => (parseDigits cs).map (fun n => (n : Int))

/-- Model of `int(s or 0)` where `s` is an already stripped cell text: the
empty string is falsy, so `or` substitutes the integer 0; any other string
goes through `int` and may raise. -/
def int_or_zero (s : String) : Option Int :=
  if s = "" then some 0 else pyInt s

/-- One entry of `captcha_sessions` (src/main.py lines 118-122): the
cookie-bearing `requests.Session` object (abstracted to an identity),
the csrf token, and the creation timestamp. -/
structure SessionRecord where
  sess : Nat
  csrf : String
  created_at : Int
deriving DecidableEq, Repr

/-- The global `captcha_sessions` dict (src/main.py line 37). -/
abbrev Registry := List (String × SessionRecord)

/-- Outcome of a `requests` call: a response, or a raised
`requests.exceptions.RequestException` (including `raise_for_status`). -/
inductive Net (α : Type) where
  | ok (a : α)
  | netErr
deriving DecidableEq, Repr

/-- Model of `cleanup_expired_sessions` (src/main.py lines 40-53): first
collect the ids of every record strictly older than 10 minutes (600
seconds), then delete each collected id from the dict. -/
def cleanup_expired_sessions (now : Int) (sessions : Registry) : Registry :=
  let expired :=
    (sessions.filter (fun p => decide (now - p.2.created_at > 600))).map Prod.fst
  expired.foldl (fun m sid => dictDelete m sid) sessions

/-- A parsed HTML table as the timetable code reads it
(src/main.py lines 243-253): the texts of the `th` cells of `thead`, and
for each `tr` of `tbody` the texts of its `td` cells, all raw (before
`.strip()`). -/
structure HtmlTable where
  header_cells : List String
  body_rows : List (List String)
deriving DecidableEq, Repr

/-- The grid payload built by the timetable parser: the dict
`timetable`, mapping each stripped day label to a dict from the
remaining stripped headers to stripped slot texts. -/
abbrev Grid := List (String × List (String × String))

/-- One iteration of the timetable parsing loop (src/main.py
lines 249-253): `cols[0]` raises `IndexError` on a row with no `td`
(hence `none`); otherwise the stripped first cell keys
`dict(zip(headers, slots))` of the stripped remaining cells. -/
def grid_row_step (headers : List String) (acc : Grid) (cols : List String) :
    Option Grid :=
  match cols with
  | [] => none
  | c0 :: rest =>
    some (dictInsert acc (strip c0) (dictOfZip headers (rest.map strip)))

/-- Helper: the timetable parsing loop over the body rows. -/
def grid_rows_loop (headers : List String) (acc : Grid) :
    List (List String) → Option Grid
  | [] => some acc
  | cols :: rest =>
    match grid_row_step headers acc cols with
    | none => none
    | some acc2 => grid_rows_loop headers acc2 rest

/-- The timetable grid extractor (src/main.py lines 243-253):
`headers = [th.text.strip() for th in thead.find_all("th")][1:]`, then
for each body row key the stripped first cell to
`dict(zip(headers, slots))`.  `none` models an exception escaping to the
generic handler (a body row with no cells). -/
def extract_grid (t : HtmlTable) : Option Grid :=
  grid_rows_loop ((t.header_cells.map strip).drop 1) [] t.body_rows

/-- One per-course record built by the attendance parser
(src/main.py lines 377-402). -/
structure AttendanceRecord where
  subject_code : String
  subject_name : String
  component : String
  location : String
  year : String
  semester : String
  total_classes : Int
  attended : Int
  absent : Int
  percentage : String
deriving DecidableEq, Repr

/-- The attendance payload: the dict `attendance_data`, keyed by
`subject_code + "_" + component`. -/
abbrev AttendanceData := List (String × AttendanceRecord)

/-- One iteration of the attendance parsing loop (src/main.py
lines 374-402): rows with fewer than 13 cells are skipped; otherwise the
stripped cells at fixed positions are read (position bounds are
guaranteed by the length test, so the `getD` defaults are dead), the
three numeric cells go through `int(text or 0)` (`none` models the
`ValueError` escaping to the generic handler), and the record is stored
under `subject_code + "_" + component`. -/
def records_row_step (acc : AttendanceData) (cols : List String) :
    Option AttendanceData :=
  if cols.length ≥ 13 then
    let subject_code := strip (cols.getD 1 "")
    let subject_name := strip (cols.getD 2 "")
    let component := strip (cols.getD 3 "")
    let location := strip (cols.getD 4 "")
    let year := strip (cols.getD 5 "")
    let semester := strip (cols.getD 6 "")
    match int_or_zero (strip (cols.getD 8 "")) with
    | none => none
    | some total_classes =>
      match int_or_zero (strip (cols.getD 9 "")) with
      | none => none
      | some attended =>
        match int_or_zero (strip (cols.getD 10 "")) with
        | none => none
        | some absent =>
          let percentage := strip (cols.getD 12 "")
          let key := subject_code ++ "_" ++ component
          some (dictInsert acc key
            ⟨subject_code, subject_name, component, location, year,
             semester, total_classes, attended, absent, percentage⟩)
  else
    some acc

/-- Helper: the attendance parsing loop over the body rows. -/
def records_rows_loop (acc : AttendanceData) :
    List (List String) → Option AttendanceData
  | [] => some acc
  | cols :: rest =>
    match records_row_step acc cols with
    | none => none
    | some acc2 => records_rows_loop acc2 rest

/-- The attendance records extractor (src/main.py lines 371-402),
starting from the empty dict `attendance_data = {}`. -/
def extract_records (rows : List (List String)) : Option AttendanceData :=
  records_rows_loop [] rows

/-- Modelled from the spec: the spec section 4.2 describes
`extract_records` as returning a `list<map<field,str>>`, one record per
body row with at least the minimum cell count, shorter rows skipped
silently.  This definition follows those words for comparison with the
source-derived `extract_records` above: identical per-row field
extraction, but records are appended to a list, so rows sharing
`subject_code` and `component` do not collapse. -/
def extract_records_speclist :
    List (List String) → Option (List AttendanceRecord)
  | [] => some []
  | cols :: rest =>
    if cols.length ≥ 13 then
      match int_or_zero (strip (cols.getD 8 "")) with
      | none => none
      | some total_classes =>
        match int_or_zero (strip (cols.getD 9 "")) with
        | none => none
        | some attended =>
          match int_or_zero (strip (cols.getD 10 "")) with
          | none => none
          | some absent =>
            match extract_records_speclist rest with
            | none => none
            | some others =>
              some (⟨strip (cols.getD 1 ""), strip (cols.getD 2 ""),
                strip (cols.getD 3 ""), strip (cols.getD 4 ""),
                strip (cols.getD 5 ""), strip (cols.getD 6 ""),
                total_classes, attended, absent,
                strip (cols.getD 12 "")⟩ :: others)
    else extract_records_speclist rest

/-- Upstream observations consumed by one `get_captcha` run: the GET of
the login page (parsed to the optional content of the `csrf-token` meta
tag, src/main.py lines 72-76), the empty-credentials probe POST (parsed
to the optional `src` of the captcha `img`, lines 94-100), and the GET
of the captcha image bytes (line 111). -/
structure GetCaptchaUpstream where
  login_page : Net (Option String)
  probe_page : Net (Option String)
  captcha_image : Net (List Nat)
deriving DecidableEq, Repr

/-- Response of `get_captcha`: the image streamed with the session id in
the `X-Session-ID` header, or a `JSONResponse` failure payload. -/
inductive CaptchaResponse where
  | image (bytes : List Nat) (session_id : String)
  | failure (status : Nat) (message : String)
deriving DecidableEq, Repr

/-- Model of `get_captcha` (src/main.py lines 56-141): sweep expired
sessions, fetch the login page for a csrf token, probe for the captcha
image, fetch its bytes, and only then store a fresh record under a fresh
id.  `new_id` stands for `secrets.token_urlsafe(16)` and `fresh_sess`
for the new `requests.Session()`.  Network errors and missing markup
return the JSON failure payloads of the source. -/
def get_captcha (now : Int) (new_id : String) (fresh_sess : Nat)
    (up : GetCaptchaUpstream) (sessions0 : Registry) :
    CaptchaResponse × Registry :=
  let sessions := cleanup_expired_sessions now sessions0
  match up.login_page with
  | .netErr =>
    (.failure 500 "Network error while fetching CAPTCHA", sessions)
  | .ok none => (.failure 500 "Failed to get CSRF token", sessions)
  | .ok (some csrf) =>
    match up.probe_page with
    | .netErr =>
      (.failure 500 "Network error while fetching CAPTCHA", sessions)
    | .ok none => (.failure 500 "CAPTCHA not found", sessions)
    | .ok (some _captcha_url) =>
      match up.captcha_image with
      | .netErr =>
        (.failure 500 "Network error while fetching CAPTCHA", sessions)
      | .ok bytes =>
        (.image bytes new_id,
         dictInsert sessions new_id ⟨fresh_sess, csrf, now⟩)

/-- True exactly when all three upstream steps of `get_captcha` succeed:
csrf meta tag found, captcha image tag found, image bytes fetched. -/
def captchaStepsSucceed (up : GetCaptchaUpstream) : Bool :=
  (match up.login_page with | .ok (some _) => true | _ => false) &&
  (match up.probe_page with | .ok (some _) => true | _ => false) &&
  (match up.captcha_image with | .ok _ => true | _ => false)

/-- True exactly on the `JSONResponse` failure branch of `get_captcha`. -/
def CaptchaResponse.isFailure : CaptchaResponse → Bool
  | .failure _ _ => true
  | .image _ _ => false

/-- Result of one login-and-fetch route: the success payload, or a
`JSONResponse` failure with its HTTP status and message. -/
inductive ApiResult (α : Type) where
  | ok (payload : α)
  | failure (status : Nat) (message : String)
deriving DecidableEq, Repr

/-- Model of the conditional deletes of src/main.py
(`if session_id and session_id in captcha_sessions: del ...`,
lines 216-217, 235-236, 256-257, 405-406). -/
def consume_if (session_id : String) (m : Registry) : Registry :=
  if session_id == "" then m
  else if dictContains m session_id then dictDelete m session_id
  else m

/-- Upstream observations consumed by one `fetch_timetable` run:
the login-page GET of the sessionless fallback branch (optional csrf
meta content, src/main.py lines 180-193), the login POST response body
(line 211), and the timetable GET (parsed to the optional first
`<table>`, lines 228-232). -/
structure TimetableUpstream where
  login_page : Net (Option String)
  login_resp : Net String
  timetable_page : Net (Option HtmlTable)
deriving DecidableEq, Repr

/-- Continuation of `fetch_timetable` after the csrf token is in hand
(src/main.py lines 202-263): POST the login form, test the body for the
"Logout" marker, fetch the timetable page, find its table, parse the
grid; each failed attempt deletes the session when a session id was
provided, and an exception inside the parse loop reaches the generic
handler without any delete. -/
def fetch_timetable_rest (session_id _csrf : String)
    (up : TimetableUpstream) (sessions : Registry) :
    ApiResult Grid × Registry :=
  match up.login_resp with
  | .netErr =>
    (.failure 500 "Network error while fetching timetable", sessions)
  | .ok body =>
    if containsSubstr body "Logout" = false then
      (.failure 400 "Invalid credentials or captcha",
       consume_if session_id sessions)
    else
      match up.timetable_page with
      | .netErr =>
        (.failure 500 "Network error while fetching timetable", sessions)
      | .ok none =>
        (.failure 400 "Timetable not found", consume_if session_id sessions)
      | .ok (some t) =>
        match extract_grid t with
        | none => (.failure 500 "Internal server error", sessions)
        | some grid => (.ok grid, consume_if session_id sessions)

/-- Model of `fetch_timetable` (src/main.py lines 144-276): sweep, then
either resume the stored session for a nonempty `session_id` (rejecting
an unknown id with the 400 "Invalid or expired session" payload before
any login attempt) or, for an empty `session_id`, fall back to a fresh
sessionless csrf fetch; then continue with login and parsing. -/
def fetch_timetable
    (_username _password _captcha session_id _academic_year_code _semester_id : String)
    (now : Int) (up : TimetableUpstream) (sessions0 : Registry) :
    ApiResult Grid × Registry :=
  let sessions := cleanup_expired_sessions now sessions0
  if session_id == "" then
    match up.login_page with
    | .netErr =>
      (.failure 500 "Network error while fetching timetable", sessions)
    | .ok none => (.failure 500 "Failed to get CSRF token", sessions)
    | .ok (some csrf) => fetch_timetable_rest session_id csrf up sessions
  else
    match dictLookup sessions session_id with
    | none => (.failure 400 "Invalid or expired session", sessions)
    | some record =>
      fetch_timetable_rest session_id record.csrf up sessions

/-- Upstream observations consumed by one `fetch_attendance` run:
the login-page GET of the sessionless fallback branch (src/main.py
lines 311-322), the login POST response body (line 339), and the
attendance POST (parsed to the optional body rows of the first
`<table class="table">`, lines 358-375). -/
structure AttendanceUpstream where
  login_page : Net (Option String)
  login_resp : Net String
  attendance_rows : Net (Option (List (List String)))
deriving DecidableEq, Repr

/-- Continuation of `fetch_attendance` after the csrf token is in hand
(src/main.py lines 331-412): POST the login form, test the body for the
"Logout" marker, POST for the attendance page, find its table, parse the
records.  Unlike `fetch_timetable_rest`, the source returns the auth
failure and the missing-table failure without deleting the session; only
the success path runs the conditional delete (lines 405-406). -/
def fetch_attendance_rest (session_id _csrf : String)
    (up : AttendanceUpstream) (sessions : Registry) :
    ApiResult AttendanceData × Registry :=
  match up.login_resp with
  | .netErr =>
    (.failure 500 "Network error while fetching attendance", sessions)
  | .ok body =>
    if containsSubstr body "Logout" = false then
      (.failure 400 "Invalid credentials or captcha", sessions)
    else
      match up.attendance_rows with
      | .netErr =>
        (.failure 500 "Network error while fetching attendance", sessions)
      | .ok none => (.failure 400 "Attendance data not found", sessions)
      | .ok (some rows) =>
        match extract_records rows with
        | none => (.failure 500 "Internal server error", sessions)
        | some data => (.ok data, consume_if session_id sessions)

/-- Model of `fetch_attendance` (src/main.py lines 279-425): sweep, then
resume the stored session for a nonempty `session_id` (rejecting an
unknown id with the 400 "Invalid or expired session" payload before any
login attempt) or fall back to a fresh sessionless csrf fetch for an
empty one; then continue with login and parsing. -/
def fetch_attendance
    (_username _password _captcha session_id _academic_year_code _semester_id : String)
    (now : Int) (up : AttendanceUpstream) (sessions0 : Registry) :
    ApiResult AttendanceData × Registry :=
  let sessions := cleanup_expired_sessions now sessions0
  if session_id == "" then
    match up.login_page with
    | .netErr =>
      (.failure 500 "Network error while fetching attendance", sessions)
    | .ok none => (.failure 500 "Failed to get CSRF token", sessions)
    | .ok (some csrf) => fetch_attendance_rest session_id csrf up sessions
  else
    match dictLookup sessions session_id with
    | none => (.failure 400 "Invalid or expired session", sessions)
    | some record =>
      fetch_attendance_rest session_id record.csrf up sessions

/-! ### Helper lemmas about the dict model -/

theorem foldl_dictDelete_eq_filter {α : Type} (ks : List String)
    (m : List (String × α)) :
    ks.foldl (fun acc k => dictDelete acc k) m
      = m.filter (fun p => !(ks.contains p.1)) := by
  induction ks generalizing m with
  | nil => simp
  | cons k ks ih =>
    rw [List.foldl_cons, ih, dictDelete, List.filter_filter]
    apply List.filter_congr
    intro p _
    by_cases hk : p.1 = k <;> by_cases hc : p.1 ∈ ks <;>
      simp [List.contains_cons, bne, hk, hc]

theorem keys_nodup_entry_inj {α : Type} {l : List (String × α)}
    (h : (l.map Prod.fst).Nodup) {p q : String × α}
    (hp : p ∈ l) (hq : q ∈ l) (hk : p.1 = q.1) : p = q :=
  List.inj_on_of_nodup_map h hp hq hk

theorem dictInsert_fresh {α : Type} (m : List (String × α)) (k : String)
    (v : α) (h : m.any (fun p => p.1 == k) = false) :
    dictInsert m k v = m ++ [(k, v)] := by
  simp only [dictInsert, h]
  rfl

theorem foldl_dictInsert_nodup {α : Type} (l m : List (String × α))
    (h : (m.map Prod.fst ++ l.map Prod.fst).Nodup) :
    l.foldl (fun acc p => dictInsert acc p.1 p.2) m = m ++ l := by
  induction l generalizing m with
  | nil => simp
  | cons p l ih =>
    have hdisj := (List.nodup_append.mp h).2.2
    have hfresh : m.any (fun q => q.1 == p.1) = false := by
      rw [List.any_eq_false]
      intro q hq
      have hqk : q.1 ∈ m.map Prod.fst := List.mem_map_of_mem Prod.fst hq
      have hpk : p.1 ∈ List.map Prod.fst (p :: l) := by simp
      intro hbeq
      exact hdisj hqk (by simp [← eq_of_beq hbeq])
    rw [List.foldl_cons]
    show List.foldl (fun acc q => dictInsert acc q.1 q.2) (dictInsert m p.1 p.2) l
        = m ++ p :: l
    rw [dictInsert_fresh m p.1 p.2 hfresh, ih]
    · simp
    · simpa [List.append_assoc] using h

theorem map_fst_zip_sublist {α β : Type} :
    ∀ (ks : List α) (vs : List β), ((ks.zip vs).map Prod.fst).Sublist ks
  | [], _ => by simp
  | _ :: _, [] => by simp
  | k :: ks, v :: vs => by
    simpa using List.Sublist.cons₂ k (map_fst_zip_sublist ks vs)

theorem dictOfZip_eq_zip {α : Type} (ks : List String) (vs : List α)
    (h : ks.Nodup) : dictOfZip ks vs = ks.zip vs := by
  unfold dictOfZip
  rw [foldl_dictInsert_nodup]
  · simp
  · simpa using (map_fst_zip_sublist ks vs).nodup h

/-! ### Claim theorems -/

/-- C4: for every registry state (with the dict invariant of pairwise
distinct keys) and every current time, the expiry sweep removes exactly
the records whose age exceeds 600 seconds and keeps every other record
unchanged and in place. -/
theorem cleanup_removes_exactly_expired (now : Int) (sessions : Registry)
    (hkeys : (sessions.map Prod.fst).Nodup) :
    cleanup_expired_sessions now sessions
      = sessions.filter (fun p => decide (now - p.2.created_at ≤ 600)) := by
  simp only [cleanup_expired_sessions]
  rw [foldl_dictDelete_eq_filter]
  apply List.filter_congr
  intro p hp
  by_cases hexp : now - p.2.created_at > 600
  · have hnle : ¬ now - p.2.created_at ≤ 600 := by omega
    have hmem : p.1 ∈ (sessions.filter
        (fun q => decide (now - q.2.created_at > 600))).map Prod.fst :=
      List.mem_map_of_mem Prod.fst
        (List.mem_filter.mpr ⟨hp, by simpa using hexp⟩)
    simp [hmem, hnle]
  · have hle : now - p.2.created_at ≤ 600 := by omega
    have hnmem : p.1 ∉ (sessions.filter
        (fun q => decide (now - q.2.created_at > 600))).map Prod.fst := by
      intro hmem
      obtain ⟨q, hqf, hq1⟩ := List.mem_map.mp hmem
      have hqs := (List.mem_filter.mp hqf).1
      have hqe := (List.mem_filter.mp hqf).2
      have hqp : q = p := keys_nodup_entry_inj hkeys hqs hp hq1
      rw [hqp] at hqe
      simp at hqe
      omega
    simp [hnmem, hle]

/-- Witness for C4 at a concrete registry: at time 601 the record
created at time 0 (age 601) is removed and the record created at
time 500 (age 101) survives unchanged. -/
theorem cleanup_removes_exactly_expired_witness :
    (([("old", ⟨0, "t", 0⟩), ("new", ⟨1, "u", 500⟩)] : Registry).map
        Prod.fst).Nodup ∧
    cleanup_expired_sessions 601
        [("old", ⟨0, "t", 0⟩), ("new", ⟨1, "u", 500⟩)]
      = [("new", ⟨1, "u", 500⟩)] := by
  refine ⟨by decide, ?_⟩
  rw [cleanup_removes_exactly_expired 601
    [("old", ⟨0, "t", 0⟩), ("new", ⟨1, "u", 500⟩)] (by decide)]
  decide

/-- C10 counterexample: a body row with 2 data cells against 3 non-label
headers, two of which carry the same label "A".  The claim expects
min(2, 3) = 2 entries in the row mapping; `dict(zip(...))` collapses the
duplicate key and produces a single entry (with the later cell). -/
theorem grid_row_mismatch_cex :
    extract_grid ⟨["Day", "A", "A", "B"], [["Mon", "x", "y"]]⟩
      = some [("Mon", [("A", "y")])] ∧
    ¬ ([("A", "y")].length = min 2 3) := by decide

/-- C10 amended: in the grid extractor, for a body row whose data cells
are zipped against pairwise distinct non-label headers, the row mapping
is exactly the truncated zip, hence has min(headers, cells) entries:
missing cells produce no entry, surplus cells are dropped, and no error
or padding occurs. -/
theorem grid_row_mapping_truncates (headers : List String) (acc : Grid)
    (day : String) (cells : List String) (h : headers.Nodup) :
    grid_row_step headers acc (day :: cells)
      = some (dictInsert acc (strip day) (headers.zip (cells.map strip))) ∧
    (dictOfZip headers (cells.map strip)).length
      = min headers.length cells.length := by
  have hz := dictOfZip_eq_zip headers (cells.map strip) h
  refine ⟨?_, ?_⟩
  · simp [grid_row_step, hz]
  · rw [hz, List.length_zip, List.length_map]

/-- Witness for C10 amended: three distinct headers against two cells
give exactly min(3, 2) = 2 entries. -/
theorem grid_row_mapping_truncates_witness :
    (["A", "B", "C"] : List String).Nodup ∧
    grid_row_step ["A", "B", "C"] [] ["Mon", "x", "y"]
      = some [("Mon", [("A", "x"), ("B", "y")])] ∧
    (dictOfZip ["A", "B", "C"] ["x", "y"]).length = 2 := by
  have h := grid_row_mapping_truncates ["A", "B", "C"] [] "Mon" ["x", "y"]
    (by decide)
  refine ⟨by decide, ?_, ?_⟩
  · rw [h.1]; decide
  · have h2 := h.2
    simpa using h2

/-- Helper for C5: the attendance loop ignores a row with fewer than 13
cells wherever it occurs, for any accumulator. -/
theorem records_rows_loop_skip (short : List String)
    (hshort : short.length < 13) :
    ∀ (pre post : List (List String)) (acc : AttendanceData),
      records_rows_loop acc (pre ++ short :: post)
        = records_rows_loop acc (pre ++ post) := by
  intro pre
  induction pre with
  | nil =>
    intro post acc
    have hstep : records_row_step acc short = some acc := by
      simp only [records_row_step]
      rw [if_neg (by omega)]
    simp only [List.nil_append, records_rows_loop, hstep]
  | cons r pre ih =>
    intro post acc
    simp only [List.cons_append, records_rows_loop]
    cases records_row_step acc r with
    | none => rfl
    | some acc2 => exact ih post acc2

/-- C5 counterexample: a 13-cell row whose "total classes" cell holds the
non-empty unparsable text "abc".  The claim expects the integer 0; the
code calls `int("abc")`, which raises `ValueError`, so the extractor
fails hard (`none`) and the route answers 500 "Internal server error"
without touching the session. -/
theorem records_unparsable_cell_cex :
    extract_records
        [["", "A", "B", "L", "R", "Y", "S", "q", "abc", "9", "1", "0", "90%"]]
      = none ∧
    fetch_attendance "u" "p" "c" "h" "19" "1" 0
        ⟨.ok (some "t"), .ok "a Logout link",
         .ok (some [["", "A", "B", "L", "R", "Y", "S", "q", "abc", "9", "1",
           "0", "90%"]])⟩
        [("h", ⟨0, "t", 0⟩)]
      = (.failure 500 "Internal server error", [("h", ⟨0, "t", 0⟩)]) := by
  decide

/-- C5 amended: the records extractor skips every body row with fewer
than 13 cells without error, and an empty numeric cell yields the
integer 0 through `int(text or 0)`; a non-empty unparsable numeric cell
instead raises and fails the request hard (see the counterexample). -/
theorem records_skip_and_empty_zero :
    (∀ (pre post : List (List String)) (short : List String),
        short.length < 13 →
        extract_records (pre ++ short :: post)
          = extract_records (pre ++ post)) ∧
    int_or_zero "" = some 0 := by
  refine ⟨?_, by decide⟩
  intro pre post short hshort
  exact records_rows_loop_skip short hshort pre post []

/-- Witness for C5 amended: a 2-cell row is skipped, leaving the result
of the remaining (empty) row list. -/
theorem records_skip_and_empty_zero_witness :
    (["only", "two"] : List String).length < 13 ∧
    extract_records [["only", "two"]] = extract_records [] := by
  refine ⟨by decide, ?_⟩
  have h := records_skip_and_empty_zero.1 [] [] ["only", "two"] (by decide)
  simpa using h

/-- C6 counterexample: two distinct qualifying body rows that share
subject code "A" and component "L".  A list of per-course records would
keep one record per row (the spec-modelled list extractor below returns
2 records); the code stores records in a dict keyed by
`subject_code + "_" + component`, so the second row overwrites the first
and only 1 record survives. -/
theorem records_dict_not_list_cex :
    extract_records
        [["", "A", "B", "L", "R", "Y", "S", "q", "1", "1", "0", "0", "100%"],
         ["", "A", "B", "L", "R", "Y", "S", "q", "2", "2", "0", "0", "100%"]]
      = some [("A_L", ⟨"A", "B", "L", "R", "Y", "S", 2, 2, 0, "100%"⟩)] ∧
    extract_records_speclist
        [["", "A", "B", "L", "R", "Y", "S", "q", "1", "1", "0", "0", "100%"],
         ["", "A", "B", "L", "R", "Y", "S", "q", "2", "2", "0", "0", "100%"]]
      = some [⟨"A", "B", "L", "R", "Y", "S", 1, 1, 0, "100%"⟩,
              ⟨"A", "B", "L", "R", "Y", "S", 2, 2, 0, "100%"⟩] := by
  decide

/-- C6 amended: for every qualifying (13-cell) row whose numeric cells
parse, the records extractor stores, under the key
`subject_code + "_" + component`, a record whose named fields are taken
from the fixed cell positions 1, 2, 3, 4, 5, 6, 8, 9, 10 and 12 of the
row; the result container is this keyed mapping, not a list. -/
theorem records_fixed_positions
    (c0 c1 c2 c3 c4 c5 c6 c7 c8 c9 c10 c11 c12 : String)
    (n8 n9 n10 : Int)
    (h8 : int_or_zero (strip c8) = some n8)
    (h9 : int_or_zero (strip c9) = some n9)
    (h10 : int_or_zero (strip c10) = some n10) :
    extract_records [[c0, c1, c2, c3, c4, c5, c6, c7, c8, c9, c10, c11, c12]]
      = some [(strip c1 ++ "_" ++ strip c3,
               ⟨strip c1, strip c2, strip c3, strip c4, strip c5, strip c6,
                n8, n9, n10, strip c12⟩)] := by
  simp [extract_records, records_rows_loop, records_row_step, h8, h9, h10,
    dictInsert, List.getD]

/-- Witness for C6 amended at a concrete qualifying row. -/
theorem records_fixed_positions_witness :
    int_or_zero (strip "10") = some 10 ∧
    extract_records
        [["0", "24SC2006", "OOP", "L", "S 220", "2025-2026", "Odd Sem", "Y",
          "10", "9", "1", "0", "90%"]]
      = some [("24SC2006_L",
               ⟨"24SC2006", "OOP", "L", "S 220", "2025-2026", "Odd Sem",
                10, 9, 1, "90%"⟩)] := by
  refine ⟨by decide, ?_⟩
  have h := records_fixed_positions "0" "24SC2006" "OOP" "L" "S 220"
    "2025-2026" "Odd Sem" "Y" "10" "9" "1" "0" "90%" 10 9 1
    (by decide) (by decide) (by decide)
  rw [h]
  decide

/-- C7: the grid extractor on headers Day, 9-10, 10-11 and the single
body row Monday, Math, Physics skips the first header, keys the row by
its first cell and zips the remaining headers against the remaining
cells. -/
theorem grid_header_zip_example :
    extract_grid ⟨["Day", "9-10", "10-11"], [["Monday", "Math", "Physics"]]⟩
      = some [("Monday", [("9-10", "Math"), ("10-11", "Physics")])] := by
  decide

/-- C8: for every header row, the grid extractor on a table whose body
has no rows returns the empty mapping rather than an error. -/
theorem grid_empty_body (header_cells : List String) :
    extract_grid ⟨header_cells, []⟩ = some [] := rfl

/-- C2 counterexample: a call with the empty handle.  The empty string
never exists in the registry (here the registry is empty), yet the code
takes the sessionless fallback branch and performs an upstream login
attempt instead of failing with the "Invalid or expired session"
payload: the outcome depends on the login response, succeeding on a
marker-bearing body and reporting bad credentials otherwise. -/
theorem sessionless_fallback_cex :
    fetch_timetable "u" "p" "c" "" "19" "1" 0
        ⟨.ok (some "t"), .ok "a Logout link", .ok (some ⟨["Day"], []⟩)⟩ []
      = (.ok [], []) ∧
    fetch_timetable "u" "p" "c" "" "19" "1" 0
        ⟨.ok (some "t"), .ok "login form again", .ok none⟩ []
      = (.failure 400 "Invalid credentials or captcha", []) :=
  ⟨by decide, by decide⟩

/-- C2 amended: for every call to either login-and-fetch operation with
a NONEMPTY handle that is absent from the (swept) registry, the
operation answers 400 "Invalid or expired session" and leaves the swept
registry unchanged; the result is the same for every upstream oracle, so
no upstream login attempt is performed. -/
theorem absent_handle_rejected
    (username password captcha session_id ayc sem : String) (now : Int)
    (upT : TimetableUpstream) (upA : AttendanceUpstream)
    (sessions0 : Registry) (hne : session_id ≠ "")
    (habs : dictLookup (cleanup_expired_sessions now sessions0) session_id
        = none) :
    fetch_timetable username password captcha session_id ayc sem now upT
        sessions0
      = (.failure 400 "Invalid or expired session",
         cleanup_expired_sessions now sessions0) ∧
    fetch_attendance username password captcha session_id ayc sem now upA
        sessions0
      = (.failure 400 "Invalid or expired session",
         cleanup_expired_sessions now sessions0) := by
  have hbeq : (session_id == "") = false := beq_eq_false_iff_ne.mpr hne
  constructor
  · simp [fetch_timetable, hbeq, habs]
  · simp [fetch_attendance, hbeq, habs]

/-- Witness for C2 amended: the unknown nonempty handle "x" against an
empty registry is rejected by both operations. -/
theorem absent_handle_rejected_witness :
    ("x" : String) ≠ "" ∧
    dictLookup (cleanup_expired_sessions 0 []) "x" = none ∧
    fetch_timetable "u" "p" "c" "x" "19" "1" 0 ⟨.netErr, .netErr, .netErr⟩ []
      = (.failure 400 "Invalid or expired session", []) ∧
    fetch_attendance "u" "p" "c" "x" "19" "1" 0 ⟨.netErr, .netErr, .netErr⟩ []
      = (.failure 400 "Invalid or expired session", []) := by
  have h := absent_handle_rejected "u" "p" "c" "x" "19" "1" 0
    ⟨.netErr, .netErr, .netErr⟩ ⟨.netErr, .netErr, .netErr⟩ []
    (by decide) (by decide)
  exact ⟨by decide, by decide, h.1, h.2⟩

/-- C9 counterexample: a failing challenge run (csrf meta tag missing)
over a registry holding one expired record.  No record is inserted and
no handle issued, but the registry is NOT left unchanged: the sweep that
opens the operation removes the expired record. -/
theorem get_captcha_failing_sweeps_cex :
    get_captcha 601 "new" 1 ⟨.ok none, .ok none, .ok []⟩
        [("h", ⟨0, "t", 0⟩)]
      = (.failure 500 "Failed to get CSRF token", []) ∧
    ¬ (([("h", ⟨0, "t", 0⟩)] : Registry) = []) :=
  ⟨by decide, by decide⟩

/-- C9 amended: a challenge run inserts a record (under the fresh
handle, with the scraped csrf and the current time) exactly when all
three upstream steps succeed; on every failing run the response is a
failure, no record is inserted and no handle issued, and the registry
is exactly the swept initial registry (changed only by the expiry
sweep). -/
theorem get_captcha_inserts_only_on_success (now : Int) (new_id : String)
    (fresh_sess : Nat) (up : GetCaptchaUpstream) (sessions0 : Registry) :
    (captchaStepsSucceed up = false →
      (get_captcha now new_id fresh_sess up sessions0).2
          = cleanup_expired_sessions now sessions0 ∧
      ((get_captcha now new_id fresh_sess up sessions0).1).isFailure
          = true) ∧
    (∀ (csrf url : String) (img : List Nat),
      up.login_page = .ok (some csrf) →
      up.probe_page = .ok (some url) →
      up.captcha_image = .ok img →
      get_captcha now new_id fresh_sess up sessions0
        = (.image img new_id,
           dictInsert (cleanup_expired_sessions now sessions0) new_id
             ⟨fresh_sess, csrf, now⟩)) := by
  obtain ⟨lp, pp, ci⟩ := up
  constructor
  · intro hfail
    cases lp with
    | netErr => exact ⟨rfl, rfl⟩
    | ok olp =>
      cases olp with
      | none => exact ⟨rfl, rfl⟩
      | some csrf =>
        cases pp with
        | netErr => exact ⟨rfl, rfl⟩
        | ok opp =>
          cases opp with
          | none => exact ⟨rfl, rfl⟩
          | some url =>
            cases ci with
            | netErr => exact ⟨rfl, rfl⟩
            | ok img => simp [captchaStepsSucceed] at hfail
  · intro csrf url img h1 h2 h3
    simp only at h1 h2 h3
    subst h1
    subst h2
    subst h3
    rfl

/-- Witness for C9 amended: one failing run (network error on the first
request) over the empty registry, and one fully successful run that
inserts the record. -/
theorem get_captcha_inserts_only_on_success_witness :
    captchaStepsSucceed ⟨.netErr, .netErr, .netErr⟩ = false ∧
    (get_captcha 0 "n1" 5 ⟨.netErr, .netErr, .netErr⟩ []).2
      = cleanup_expired_sessions 0 [] ∧
    get_captcha 0 "n2" 7 ⟨.ok (some "t"), .ok (some "u"), .ok [1, 2]⟩ []
      = (.image [1, 2] "n2", [("n2", ⟨7, "t", 0⟩)]) := by
  have h1 := (get_captcha_inserts_only_on_success 0 "n1" 5
    ⟨.netErr, .netErr, .netErr⟩ []).1 (by decide)
  have h2 := (get_captcha_inserts_only_on_success 0 "n2" 7
    ⟨.ok (some "t"), .ok (some "u"), .ok [1, 2]⟩ []).2 "t" "u" [1, 2]
    rfl rfl rfl
  refine ⟨by decide, h1.1, ?_⟩
  rw [h2]
  decide

/-- C1: with handle "h" stored, a fetch_attendance call whose login
response lacks the "Logout" marker returns the auth failure but leaves
"h" in the registry, and a second fetch_attendance call is then accepted
with the same handle: the handle survives a login-and-fetch call and is
consumed twice (fetch_timetable, by contrast, deletes it in the same
situation; see the C3 theorem). -/
theorem fetch_attendance_auth_failure_keeps_handle :
    fetch_attendance "u" "p" "c" "h" "19" "1" 0
        ⟨.ok (some "t"), .ok "login form again", .ok none⟩
        [("h", ⟨0, "t", 0⟩)]
      = (.failure 400 "Invalid credentials or captcha",
         [("h", ⟨0, "t", 0⟩)]) ∧
    fetch_attendance "u" "p" "c" "h" "19" "1" 0
        ⟨.ok (some "t"), .ok "a Logout link", .ok (some [])⟩
        [("h", ⟨0, "t", 0⟩)]
      = (.ok [], []) :=
  ⟨by decide, by decide⟩

/-- C3: on a login response without the "Logout" marker both operations
return 400 "Invalid credentials or captcha", but only fetch_timetable
consumes the handle; fetch_attendance returns with the handle still in
the registry, contradicting the claim that the orchestrator always
consumes it. -/
theorem login_marker_consumption_divergence :
    fetch_timetable "u" "p" "c" "hT" "19" "1" 0
        ⟨.ok (some "t"), .ok "login form again", .ok none⟩
        [("hT", ⟨0, "t", 0⟩)]
      = (.failure 400 "Invalid credentials or captcha", []) ∧
    fetch_attendance "u" "p" "c" "hA" "19" "1" 0
        ⟨.ok (some "s"), .ok "login form again", .ok none⟩
        [("hA", ⟨1, "s", 0⟩)]
      = (.failure 400 "Invalid credentials or captcha",
         [("hA", ⟨1, "s", 0⟩)]) :=
  ⟨by decide, by decide⟩
